import Mathlib

/-!
Verification of the cisco-mdt-telemetry-simulator repository.

Part 1 embeds the hand-rolled protobuf wire codec from the telemetry
package (Telemetry / TelemetryField and their Marshal methods, built on
google.golang.org/protobuf/encoding/protowire primitives).

Part 2 embeds the simulation state model and the per-tick update rules
from main.go together with the configuration loading and validation code
(Config, validateConfig, DefaultConfig, the init functions).

Conventions of the shallow embedding:
* Go strings that only flow through the encoder are modelled as byte
  lists (List Nat); strings that are only compared for equality in the
  simulation (BGP state names, VNI state names, addresses) are modelled
  as Lean String.
* uint32 / uint64 arithmetic is Nat with explicit reduction mod 2^32 /
  2^64 at every point where the Go code performs a conversion or an
  overflowing operation; Go int is modelled as Int.
* rand.Intn n is derandomized: the draw is an explicit Nat argument,
  reduced mod n; rand.Intn panics for n <= 0, modelled as Option.none.
* rand.Float64 draws are explicit rational arguments.
* float64 / float32 scalar values are represented by their IEEE bit
  patterns (a Nat); the encoder only ever uses math.Float64bits /
  math.Float32bits of the value, so encoding from the bit pattern is
  exactly the source computation.
-/

/-- protowire.AppendVarint: little-endian base-128 varint, low 7 bits
first, continuation bit set on every byte but the last.  The recursion
is bounded by a fuel of 10 bytes, exact for every value below 2^70 and
in particular for every uint64 the Go code can pass. -/
def varintAux : Nat → Nat → List Nat
  | 0, n => [n % 128]
  | fuel + 1, n => if n < 128 then [n] else (n % 128 + 128) :: varintAux fuel (n / 128)

/-- Varint encoding of a Nat (exact for values below 2^70). -/
def varintBytes (n : Nat) : List Nat := varintAux 10 n

/-- protowire.AppendTag: the tag is the varint of (field number shifted
left by 3, or-ed with the wire type). -/
def tagBytes (num ty : Nat) : List Nat := varintBytes (num * 8 + ty)

/-- protowire.AppendBytes / AppendString: varint length prefix followed
by the raw bytes. -/
def lenDelim (b : List Nat) : List Nat := varintBytes b.length ++ b

/-- protowire.AppendFixed32: 4 bytes, little endian. -/
def fixed32Bytes (n : Nat) : List Nat :=
  [n % 256, n / 256 % 256, n / 65536 % 256, n / 16777216 % 256]

/-- protowire.AppendFixed64: 8 bytes, little endian. -/
def fixed64Bytes (n : Nat) : List Nat :=
  [n % 256, n / 256 % 256, n / 65536 % 256, n / 16777216 % 256,
   n / 4294967296 % 256, n / 1099511627776 % 256,
   n / 281474976710656 % 256, n / 72057594037927936 % 256]

/-- protowire.EncodeZigZag on an int64 value: non-negative x maps to
2x, negative x maps to -2x-1. -/
def encodeZigZag (x : Int) : Nat := if 0 ≤ x then 2 * x.toNat else 2 * (-x).toNat - 1

mutual

/-- telemetry.TelemetryField: a node of the GPB-KV tree.  Field order of
the constructor matches the Go struct: Timestamp, Name, Fields,
StringValue, Uint32Value, Uint64Value, BoolValue, DoubleValue,
FloatValue, BytesValue, Sint32Value, Sint64Value.  The pointer-typed
scalar slots of the Go struct are Options; the float slots hold the
IEEE bit pattern. -/
inductive TelemetryField where
  | mk (timestamp : Nat) (name : List Nat) (fields : TFList)
      (stringValue : Option (List Nat)) (uint32Value : Option Nat)
      (uint64Value : Option Nat) (boolValue : Option Bool)
      (doubleValue : Option Nat) (floatValue : Option Nat)
      (bytesValue : Option (List Nat)) (sint32Value : Option Int)
      (sint64Value : Option Int)

/-- The repeated Fields slice of a TelemetryField, as a mutual list type
so that the marshaller is plain structural recursion. -/
inductive TFList where
  | nil
  | cons (head : TelemetryField) (tail : TFList)

end

mutual

/-- TelemetryField.Marshal from the telemetry package: emits, in source
order, timestamp (field 1, varint, omitted when 0), name (field 2,
bytes, omitted when empty), then each set scalar slot with its tag
(bytes 4, string 5, bool 6, uint32 7, uint64 8, sint32 9 zig-zag,
sint64 10 zig-zag, double 11 fixed64, float 12 fixed32), then each
child as field 15, length-delimited.  The only error path is the
propagation of a child error. -/
def TelemetryField.marshal : TelemetryField → Except String (List Nat)
  | .mk ts name fields sv u32 u64 bv dv fv byv s32 s64 =>
    match TFList.marshalChunks fields with
    | .error e => .error e
    | .ok childBytes =>
      .ok ((if ts = 0 then [] else tagBytes 1 0 ++ varintBytes ts)
        ++ (if name = [] then [] else tagBytes 2 2 ++ lenDelim name)
        ++ (match byv with | none => [] | some b => tagBytes 4 2 ++ lenDelim b)
        ++ (match sv with | none => [] | some s => tagBytes 5 2 ++ lenDelim s)
        ++ (match bv with | none => [] | some b => tagBytes 6 0 ++ varintBytes (if b then 1 else 0))
        ++ (match u32 with | none => [] | some v => tagBytes 7 0 ++ varintBytes v)
        ++ (match u64 with | none => [] | some v => tagBytes 8 0 ++ varintBytes v)
        ++ (match s32 with | none => [] | some v => tagBytes 9 0 ++ varintBytes (encodeZigZag v))
        ++ (match s64 with | none => [] | some v => tagBytes 10 0 ++ varintBytes (encodeZigZag v))
        ++ (match dv with | none => [] | some bits => tagBytes 11 1 ++ fixed64Bytes bits)
        ++ (match fv with | none => [] | some bits => tagBytes 12 5 ++ fixed32Bytes bits)
        ++ childBytes)

/-- The child loop of TelemetryField.Marshal: each child is marshalled
(propagating its error, if any) and appended as field 15 with a length
prefix. -/
def TFList.marshalChunks : TFList → Except String (List Nat)
  | .nil => .ok []
  | .cons f rest =>
    match TelemetryField.marshal f with
    | .error e => .error e
    | .ok fb =>
      match TFList.marshalChunks rest with
      | .error e => .error e
      | .ok restBytes => .ok (tagBytes 15 2 ++ lenDelim fb ++ restBytes)

end

/-- telemetry.Telemetry: the GPB-KV telemetry envelope, fields as in the
Go struct. -/
structure Telemetry where
  nodeIDStr : List Nat
  subscriptionIDStr : List Nat
  encodingPath : List Nat
  collectionID : Nat
  collectionStartTime : Nat
  msgTimestamp : Nat
  collectionEndTime : Nat
  dataGpbkv : TFList

/-- The data_gpbkv loop of Telemetry.Marshal: each TelemetryField is
marshalled (propagating its error) and appended as field 11,
length-delimited. -/
def marshalData : TFList → Except String (List Nat)
  | .nil => .ok []
  | .cons f rest =>
    match TelemetryField.marshal f with
    | .error e => .error e
    | .ok fb =>
      match marshalData rest with
      | .error e => .error e
      | .ok restBytes => .ok (tagBytes 11 2 ++ lenDelim fb ++ restBytes)

/-- Telemetry.Marshal: node_id_str (1), subscription_id_str (3),
encoding_path (6), collection_id (8), collection_start_time (9),
msg_timestamp (10), data_gpbkv (11, repeated), collection_end_time
(13); string fields omitted when empty, integer fields omitted when 0. -/
def Telemetry.marshal (t : Telemetry) : Except String (List Nat) :=
  match marshalData t.dataGpbkv with
  | .error e => .error e
  | .ok dataBytes =>
    .ok ((if t.nodeIDStr = [] then [] else tagBytes 1 2 ++ lenDelim t.nodeIDStr)
      ++ (if t.subscriptionIDStr = [] then [] else tagBytes 3 2 ++ lenDelim t.subscriptionIDStr)
      ++ (if t.encodingPath = [] then [] else tagBytes 6 2 ++ lenDelim t.encodingPath)
      ++ (if t.collectionID = 0 then [] else tagBytes 8 0 ++ varintBytes t.collectionID)
      ++ (if t.collectionStartTime = 0 then [] else tagBytes 9 0 ++ varintBytes t.collectionStartTime)
      ++ (if t.msgTimestamp = 0 then [] else tagBytes 10 0 ++ varintBytes t.msgTimestamp)
      ++ dataBytes
      ++ (if t.collectionEndTime = 0 then [] else tagBytes 13 0 ++ varintBytes t.collectionEndTime))

/-- telemetry.StringField helper. -/
def StringField (name : List Nat) (value : List Nat) (ts : Nat) : TelemetryField :=
  .mk ts name .nil (some value) none none none none none none none none

/-- telemetry.Uint32Field helper. -/
def Uint32Field (name : List Nat) (value : Nat) (ts : Nat) : TelemetryField :=
  .mk ts name .nil none (some value) none none none none none none none

/-- telemetry.Uint64Field helper. -/
def Uint64Field (name : List Nat) (value : Nat) (ts : Nat) : TelemetryField :=
  .mk ts name .nil none none (some value) none none none none none none

/-- Go conversion uint32(x) of an int x: the low 32 bits, i.e. x mod 2^32. -/
def toUInt32Nat (x : Int) : Nat := (x % 4294967296).toNat

/-- Go conversion uint64(x) of an int x: the low 64 bits, i.e. x mod 2^64. -/
def toUInt64Nat (x : Int) : Nat := (x % 18446744073709551616).toNat

/-- rand.Intn n with the random draw supplied explicitly: panics (none)
when n <= 0, otherwise returns a value in [0, n) (the draw reduced
mod n). -/
def intn (n : Int) (draw : Nat) : Option Nat :=
  if n ≤ 0 then none else some (draw % n.toNat)

/-- CountersConfig from config.go: increment ranges for the counters
(Go int fields). -/
structure CountersConfig where
  vxlanIngressMin : Int
  vxlanIngressMax : Int
  vxlanEgressMin : Int
  vxlanEgressMax : Int
  bgpPfxFluctuation : Int
  evpnType2Fluctuation : Int
  evpnType3Fluctuation : Int
  evpnType5Fluctuation : Int
  vniMACFluctuation : Int
  vniARPFluctuation : Int
deriving DecidableEq

/-- SimulationConfig from config.go. -/
structure SimulationConfig where
  flapRecoveryMin : Int
  flapRecoveryMax : Int
  counters : CountersConfig
deriving DecidableEq

/-- VXLANConfig from config.go (uint64 / uint32 fields as Nat). -/
structure VXLANConfig where
  initialIngressBytes : Nat
  initialEgressBytes : Nat
  vniID : Nat
  interfaceName : String
deriving DecidableEq

/-- BGPNeighborConfig from config.go (InitialPrefixesRecv and
InitialPrefixesSent are spelled pfx here). -/
structure BGPNeighborConfig where
  address : String
  remoteAS : Nat
  initialPfxRecv : Nat
  initialPfxSent : Nat
deriving DecidableEq

/-- EVPNConfig from config.go. -/
structure EVPNConfig where
  type2Routes : Nat
  type3Routes : Nat
  type5Routes : Nat
deriving DecidableEq

/-- VNIStateConfig from config.go. -/
structure VNIStateConfig where
  vniID : Nat
  initialMACCount : Nat
  initialVTEPCount : Nat
  initialARPCount : Nat
deriving DecidableEq

/-- Config from config.go. -/
structure Config where
  simulation : SimulationConfig
  vxlan : VXLANConfig
  bgpNeighbors : List BGPNeighborConfig
  evpn : EVPNConfig
  vniStates : List VNIStateConfig
deriving DecidableEq

/-- DefaultConfig from config.go: the hardcoded default configuration. -/
def defaultConfig : Config :=
  { simulation :=
      { flapRecoveryMin := 15
        flapRecoveryMax := 30
        counters :=
          { vxlanIngressMin := 1000
            vxlanIngressMax := 5000
            vxlanEgressMin := 1500
            vxlanEgressMax := 5000
            bgpPfxFluctuation := 5
            evpnType2Fluctuation := 5
            evpnType3Fluctuation := 3
            evpnType5Fluctuation := 3
            vniMACFluctuation := 5
            vniARPFluctuation := 3 } }
    vxlan :=
      { initialIngressBytes := 1000000
        initialEgressBytes := 2000000
        vniID := 5000
        interfaceName := "VNI-Leaf-Tenant-A" }
    bgpNeighbors :=
      [ { address := "10.0.0.1", remoteAS := 65001, initialPfxRecv := 150, initialPfxSent := 50 },
        { address := "10.0.0.2", remoteAS := 65001, initialPfxRecv := 148, initialPfxSent := 50 },
        { address := "10.0.0.3", remoteAS := 65002, initialPfxRecv := 145, initialPfxSent := 50 } ]
    evpn := { type2Routes := 120, type3Routes := 8, type5Routes := 45 }
    vniStates :=
      [ { vniID := 5000, initialMACCount := 45, initialVTEPCount := 3, initialARPCount := 42 },
        { vniID := 5001, initialMACCount := 32, initialVTEPCount := 3, initialARPCount := 30 },
        { vniID := 5002, initialMACCount := 28, initialVTEPCount := 3, initialARPCount := 25 } ] }

/-- validateConfig from config.go: true exactly when the function
returns nil.  Checks, in source order: flap recovery times positive and
min <= max; VXLAN ingress bounds non-negative; ingress min <= max;
egress min <= max (note: no non-negativity check for the egress
bounds); at least one BGP neighbor; at least one VNI state. -/
def validateConfig (c : Config) : Bool :=
  if c.simulation.flapRecoveryMin ≤ 0 ∨ c.simulation.flapRecoveryMax ≤ 0 then false
  else if c.simulation.flapRecoveryMin > c.simulation.flapRecoveryMax then false
  else if c.simulation.counters.vxlanIngressMin < 0 ∨ c.simulation.counters.vxlanIngressMax < 0 then false
  else if c.simulation.counters.vxlanIngressMin > c.simulation.counters.vxlanIngressMax then false
  else if c.simulation.counters.vxlanEgressMin > c.simulation.counters.vxlanEgressMax then false
  else if c.bgpNeighbors.length = 0 then false
  else if c.vniStates.length = 0 then false
  else true

/-- BGPNeighbor from main.go.  LastFlap is a timestamp in nanoseconds
(time.Time); Uptime is in seconds (uint64); PrefixesRecv/PrefixesSent
are spelled pfx. -/
structure BGPNeighbor where
  address : String
  remoteAS : Nat
  state : String
  stateCode : Nat
  pfxRecv : Nat
  pfxSent : Nat
  uptime : Nat
  lastFlap : Nat
  flapCount : Nat
deriving DecidableEq

/-- EVPNState from main.go (uint32 fields). -/
structure EVPNState where
  type2Routes : Nat
  type3Routes : Nat
  type5Routes : Nat
  totalRoutes : Nat
deriving DecidableEq

/-- VNIState from main.go. -/
structure VNIState where
  vniID : Nat
  state : String
  stateCode : Nat
  macCount : Nat
  vtepCount : Nat
  arpCount : Nat
deriving DecidableEq

/-- initBGPNeighborsFromConfig from config.go: every neighbor starts
Established (code 6) with the configured counts, zero uptime and flap
count, and LastFlap = startTime. -/
def initBGPNeighborsFromConfig (c : Config) (startTime : Nat) : List BGPNeighbor :=
  c.bgpNeighbors.map fun nc =>
    { address := nc.address
      remoteAS := nc.remoteAS
      state := "Established"
      stateCode := 6
      pfxRecv := nc.initialPfxRecv
      pfxSent := nc.initialPfxSent
      uptime := 0
      lastFlap := startTime
      flapCount := 0 }

/-- initEVPNStateFromConfig from config.go: TotalRoutes is the uint32
sum of the three configured counts. -/
def initEVPNStateFromConfig (c : Config) : EVPNState :=
  { type2Routes := c.evpn.type2Routes
    type3Routes := c.evpn.type3Routes
    type5Routes := c.evpn.type5Routes
    totalRoutes := (c.evpn.type2Routes + c.evpn.type3Routes + c.evpn.type5Routes) % 4294967296 }

/-- initVNIStatesFromConfig from config.go: every VNI starts Up (code 1)
with the configured counts. -/
def initVNIStatesFromConfig (c : Config) : List VNIState :=
  c.vniStates.map fun vc =>
    { vniID := vc.vniID
      state := "Up"
      stateCode := 1
      macCount := vc.initialMACCount
      vtepCount := vc.initialVTEPCount
      arpCount := vc.initialARPCount }

/-- The per-neighbor body of the BGP update loop in main.go (lines
119-147), derandomized.  flapDraw is the rand.Float64 draw, pfxDraw,
recoveryDraw and recvDraw are the rand.Intn draws of the respective
branches; now is the tick time in nanoseconds.  For an Established
neighbor the uptime is recomputed first (uint64 of the elapsed seconds),
then the flap draw is compared against the flap chance: on a flap the
neighbor becomes Idle (code 1) with PrefixesRecv 0, an incremented flap
counter, and LastFlap = now; otherwise PrefixesRecv gets a signed
fluctuation from rand.Intn(fluct*2+1)-fluct.  For a non-Established
neighbor a recovery threshold of FlapRecoveryMin+rand.Intn(Max-Min)
seconds is drawn; when the time since LastFlap exceeds it the neighbor
becomes Established (code 6) with PrefixesRecv = 140+rand.Intn(20) and
LastFlap = now, otherwise nothing changes. -/
def updateNeighbor (sim : SimulationConfig) (flapChance flapDraw : ℚ)
    (pfxDraw recoveryDraw recvDraw : Nat) (now : Nat) (n : BGPNeighbor) :
    Option BGPNeighbor :=
  if n.state = "Established" then
    let n2 := { n with uptime := (now - n.lastFlap) / 1000000000 % 18446744073709551616 }
    if flapDraw < flapChance then
      some { n2 with state := "Idle", stateCode := 1, pfxRecv := 0,
                     flapCount := (n2.flapCount + 1) % 4294967296, lastFlap := now }
    else
      match intn (2 * sim.counters.bgpPfxFluctuation + 1) pfxDraw with
      | none => none
      | some d =>
        some { n2 with pfxRecv := toUInt32Nat ((n2.pfxRecv : Int) + d - sim.counters.bgpPfxFluctuation) }
  else
    match intn (sim.flapRecoveryMax - sim.flapRecoveryMin) recoveryDraw with
    | none => none
    | some r =>
      if ((now - n.lastFlap : Nat) : Int) > (sim.flapRecoveryMin + r) * 1000000000 then
        match intn 20 recvDraw with
        | none => none
        | some d =>
          some { n with state := "Established", stateCode := 6,
                        pfxRecv := toUInt32Nat (140 + d), lastFlap := now }
      else
        some n

/-- The EVPN update of the tick loop in main.go (lines 150-160),
derandomized: each route count gets a signed fluctuation
rand.Intn(fluct*2+1)-fluct in uint32 arithmetic, then TotalRoutes is
recomputed as the uint32 sum of the three counts. -/
def evpnTick (c : CountersConfig) (d2 d3 d5 : Nat) (s : EVPNState) : Option EVPNState :=
  match intn (2 * c.evpnType2Fluctuation + 1) d2 with
  | none => none
  | some r2 =>
    let t2 := toUInt32Nat ((s.type2Routes : Int) + r2 - c.evpnType2Fluctuation)
    match intn (2 * c.evpnType3Fluctuation + 1) d3 with
    | none => none
    | some r3 =>
      let t3 := toUInt32Nat ((s.type3Routes : Int) + r3 - c.evpnType3Fluctuation)
      match intn (2 * c.evpnType5Fluctuation + 1) d5 with
      | none => none
      | some r5 =>
        let t5 := toUInt32Nat ((s.type5Routes : Int) + r5 - c.evpnType5Fluctuation)
        some { type2Routes := t2, type3Routes := t3, type5Routes := t5,
               totalRoutes := (t2 + t3 + t5) % 4294967296 }

/-- The per-VNI body of the VNI update loop in main.go (lines 163-169),
derandomized: the MAC count and then the ARP count get a signed
fluctuation rand.Intn(fluct*2+1)-fluct in uint32 arithmetic.  No other
field of the VNIState is touched. -/
def vniTick (c : CountersConfig) (dMac dArp : Nat) (v : VNIState) : Option VNIState :=
  match intn (2 * c.vniMACFluctuation + 1) dMac with
  | none => none
  | some rM =>
    let v2 := { v with macCount := toUInt32Nat ((v.macCount : Int) + rM - c.vniMACFluctuation) }
    match intn (2 * c.vniARPFluctuation + 1) dArp with
    | none => none
    | some rA =>
      some { v2 with arpCount := toUInt32Nat ((v2.arpCount : Int) + rA - c.vniARPFluctuation) }

/-- The VXLAN counter update of the tick loop in main.go (lines
112-116), derandomized: each of ingressBytes and egressBytes gets
uint64(min + rand.Intn(max-min)) added in uint64 arithmetic. -/
def vxlanTick (c : CountersConfig) (rIn rEg ing eg : Nat) : Option (Nat × Nat) :=
  match intn (c.vxlanIngressMax - c.vxlanIngressMin) rIn with
  | none => none
  | some dIn =>
    let ing2 := (ing + toUInt64Nat (c.vxlanIngressMin + dIn)) % 18446744073709551616
    match intn (c.vxlanEgressMax - c.vxlanEgressMin) rEg with
    | none => none
    | some dEg =>
      some (ing2, (eg + toUInt64Nat (c.vxlanEgressMin + dEg)) % 18446744073709551616)

/-- A counters configuration whose three EVPN fluctuation magnitudes
are zero (the other fields are the defaults); used for the Route
Summary zero-fluctuation scenario. -/
def zeroFluctCounters : CountersConfig :=
  { defaultConfig.simulation.counters with
    evpnType2Fluctuation := 0, evpnType3Fluctuation := 0, evpnType5Fluctuation := 0 }

/-- The default configuration with the VXLAN egress delta range changed
to the negative range [-5000, -1000): every bound check of
validateConfig still passes, because validateConfig only checks
non-negativity of the ingress bounds. -/
def negEgressConfig : Config :=
  { defaultConfig with simulation :=
      { defaultConfig.simulation with counters :=
          { defaultConfig.simulation.counters with
            vxlanEgressMin := -5000, vxlanEgressMax := -1000 } } }

/-- The default configuration with the VXLAN ingress delta range
degenerated to min = max = 1000: validateConfig accepts it (it only
rejects min > max), but the tick update then evaluates rand.Intn(0),
which panics. -/
def minEqMaxConfig : Config :=
  { defaultConfig with simulation :=
      { defaultConfig.simulation with counters :=
          { defaultConfig.simulation.counters with
            vxlanIngressMin := 1000, vxlanIngressMax := 1000 } } }

mutual

/-- Helper for the claims about the codec error path: TelemetryField
marshalling always succeeds (mutually with marshalChunks_alwaysOk). -/
theorem marshal_alwaysOk : ∀ f : TelemetryField, ∃ b, TelemetryField.marshal f = .ok b
  | .mk ts name fields sv u32 u64 bv dv fv byv s32 s64 => by
    obtain ⟨bc, hc⟩ := marshalChunks_alwaysOk fields
    simp only [TelemetryField.marshal, hc]
    exact ⟨_, rfl⟩

/-- Helper: the child loop of TelemetryField.Marshal always succeeds. -/
theorem marshalChunks_alwaysOk : ∀ l : TFList, ∃ b, TFList.marshalChunks l = .ok b
  | .nil => ⟨[], rfl⟩
  | .cons f rest => by
    obtain ⟨b1, h1⟩ := marshal_alwaysOk f
    obtain ⟨b2, h2⟩ := marshalChunks_alwaysOk rest
    simp only [TFList.marshalChunks, h1, h2]
    exact ⟨_, rfl⟩

end

/-- Helper: the data_gpbkv loop of Telemetry.Marshal always succeeds. -/
theorem marshalData_alwaysOk : ∀ l : TFList, ∃ b, marshalData l = .ok b
  | .nil => ⟨[], rfl⟩
  | .cons f rest => by
    obtain ⟨b1, h1⟩ := marshal_alwaysOk f
    obtain ⟨b2, h2⟩ := marshalData_alwaysOk rest
    simp only [marshalData, h1, h2]
    exact ⟨_, rfl⟩

/-- C1 counterexample: a TelemetryField built by Uint32Field with value
0 (name "x", byte 120, timestamp 0) does NOT encode to the same bytes
as the identical field with the uint32 slot unset; the zero-valued
field emits the uint32 tag byte 56 followed by the varint 0.  So a
zero-valued set scalar is not omitted and is distinguishable on the
wire from an unset field. -/
theorem zero_scalar_emitted_cex :
    TelemetryField.marshal (Uint32Field [120] 0 0) = .ok [18, 1, 120, 56, 0] ∧
    TelemetryField.marshal (Uint32Field [120] 0 0) ≠
      TelemetryField.marshal (.mk 0 [120] .nil none none none none none none none none none) := by
  constructor
  · rfl
  · have hA : TelemetryField.marshal (Uint32Field [120] 0 0) = .ok [18, 1, 120, 56, 0] := rfl
    have hB : TelemetryField.marshal
        (.mk 0 [120] .nil none none none none none none none none none) = .ok [18, 1, 120] := rfl
    rw [hA, hB]
    intro h
    exact absurd (Except.ok.inj h) (by decide)

/-- C1 (amended): a scalar slot of a TelemetryField is omitted exactly
when its pointer is nil; a slot that is set is always encoded with its
tag, even when the value is zero (or the empty string, which gets its
tag and a zero length).  For the fields the builders set: a uint32
slot always emits tag byte 56 and the varint of the value, a uint64
slot tag byte 64, a string slot tag byte 42 and the length-prefixed
bytes — for every value including zero / empty. -/
theorem set_scalar_always_tagged :
    (∀ (ts : Nat) (name : List Nat) (v : Nat),
      TelemetryField.marshal (Uint32Field name v ts) =
        .ok ((if ts = 0 then [] else tagBytes 1 0 ++ varintBytes ts)
          ++ (if name = [] then [] else tagBytes 2 2 ++ lenDelim name)
          ++ (tagBytes 7 0 ++ varintBytes v))) ∧
    (∀ (ts : Nat) (name : List Nat) (v : Nat),
      TelemetryField.marshal (Uint64Field name v ts) =
        .ok ((if ts = 0 then [] else tagBytes 1 0 ++ varintBytes ts)
          ++ (if name = [] then [] else tagBytes 2 2 ++ lenDelim name)
          ++ (tagBytes 8 0 ++ varintBytes v))) ∧
    (∀ (ts : Nat) (name : List Nat) (s : List Nat),
      TelemetryField.marshal (StringField name s ts) =
        .ok ((if ts = 0 then [] else tagBytes 1 0 ++ varintBytes ts)
          ++ (if name = [] then [] else tagBytes 2 2 ++ lenDelim name)
          ++ (tagBytes 5 2 ++ lenDelim s))) := by
  refine ⟨fun ts name v => ?_, fun ts name v => ?_, fun ts name s => ?_⟩
  · simp [Uint32Field, TelemetryField.marshal, TFList.marshalChunks]
  · simp [Uint64Field, TelemetryField.marshal, TFList.marshalChunks]
  · simp [StringField, TelemetryField.marshal, TFList.marshalChunks]

/-- C2: the oscillating EVPN route counters do not clamp at zero.  At
the failing input (all route counts 0, the default fluctuation bounds
5, 3 and 3, and the minimal draws, i.e. signed deltas -5, -3, -3) the uint32
arithmetic of the tick wraps each counter around to values just below
2^32 instead of clamping it at 0. -/
theorem oscillating_counter_wraps_not_clamps :
    evpnTick defaultConfig.simulation.counters 0 0 0
      { type2Routes := 0, type3Routes := 0, type5Routes := 0, totalRoutes := 0 } =
      some { type2Routes := 4294967291, type3Routes := 4294967293,
             type5Routes := 4294967293, totalRoutes := 4294967285 } := by
  decide

/-- C8: Telemetry.Marshal and TelemetryField.Marshal return a nil error
for every message and every field tree: the encoder has no failure path
(the only error returns propagate child errors, and no leaf ever
produces one), so the marshal-error branch of the tick loop is
unreachable. -/
theorem marshal_never_errors :
    (∀ t : Telemetry, ∃ b, Telemetry.marshal t = .ok b) ∧
    (∀ f : TelemetryField, ∃ b, TelemetryField.marshal f = .ok b) := by
  constructor
  · intro t
    obtain ⟨b, hb⟩ := marshalData_alwaysOk t.dataGpbkv
    simp only [Telemetry.marshal, hb]
    exact ⟨_, rfl⟩
  · exact marshal_alwaysOk

/-- C3: an Established neighbor whose flap draw comes in below the flap
chance transitions, in one tick, to Idle (state code 1) with its
received-prefix count cleared to 0, its flap counter incremented by
exactly 1 (in uint32 arithmetic), and its LastFlap timestamp set to the
tick time; its uptime was recomputed just before the draw. -/
theorem established_flap_transition (sim : SimulationConfig) (flapChance flapDraw : ℚ)
    (pfxDraw recoveryDraw recvDraw : Nat) (now : Nat) (n : BGPNeighbor)
    (hs : n.state = "Established") (hd : flapDraw < flapChance) :
    updateNeighbor sim flapChance flapDraw pfxDraw recoveryDraw recvDraw now n =
      some { n with uptime := (now - n.lastFlap) / 1000000000 % 18446744073709551616,
                    state := "Idle", stateCode := 1, pfxRecv := 0,
                    flapCount := (n.flapCount + 1) % 4294967296, lastFlap := now } := by
  simp [updateNeighbor, hs, hd]

/-- C3 witness: the scenario of the claim.  A peer that is Established
with received-prefix count 150 and flap counter 0, on a tick (5 seconds
in) whose draw 0 is below the default flap chance of 1/50, ends the
tick Idle with received-prefix count 0 and flap counter 1. -/
theorem established_flap_transition_witness :
    updateNeighbor defaultConfig.simulation (1/50) 0 0 0 0 5000000000
      { address := "10.0.0.1", remoteAS := 65001, state := "Established", stateCode := 6,
        pfxRecv := 150, pfxSent := 50, uptime := 0, lastFlap := 0, flapCount := 0 } =
      some { address := "10.0.0.1", remoteAS := 65001, state := "Idle", stateCode := 1,
             pfxRecv := 0, pfxSent := 50, uptime := 5, lastFlap := 5000000000, flapCount := 1 } := by
  rw [established_flap_transition _ _ _ _ _ _ _ _ rfl (by norm_num)]
  rfl

/-- C4: an Idle neighbor, with the recovery threshold re-drawn on this
evaluation as FlapRecoveryMin + recoveryDraw seconds, transitions back
to Established (state code 6) with a fresh received-prefix count of
140 + recvDraw (the draw lies in the band 140..159) and LastFlap set to
the tick time, exactly when the time since the transition into Idle
exceeds the threshold; otherwise no field of the record changes. -/
theorem idle_recovery_transition (sim : SimulationConfig) (flapChance flapDraw : ℚ)
    (pfxDraw recoveryDraw recvDraw : Nat) (now : Nat) (n : BGPNeighbor)
    (hs : n.state = "Idle")
    (hr : recoveryDraw < (sim.flapRecoveryMax - sim.flapRecoveryMin).toNat)
    (hv : recvDraw < 20) :
    (((now - n.lastFlap : Nat) : Int) > (sim.flapRecoveryMin + recoveryDraw) * 1000000000 →
      updateNeighbor sim flapChance flapDraw pfxDraw recoveryDraw recvDraw now n =
        some { n with state := "Established", stateCode := 6,
                      pfxRecv := 140 + recvDraw, lastFlap := now }) ∧
    (¬ ((now - n.lastFlap : Nat) : Int) > (sim.flapRecoveryMin + recoveryDraw) * 1000000000 →
      updateNeighbor sim flapChance flapDraw pfxDraw recoveryDraw recvDraw now n = some n) := by
  have hner : ¬ (n.state = "Established") := by rw [hs]; decide
  have hpos : ¬ (sim.flapRecoveryMax - sim.flapRecoveryMin ≤ 0) := by omega
  have hmod : recoveryDraw % (sim.flapRecoveryMax - sim.flapRecoveryMin).toNat = recoveryDraw :=
    Nat.mod_eq_of_lt hr
  have h20 : recvDraw % 20 = recvDraw := Nat.mod_eq_of_lt hv
  have hrecv : toUInt32Nat (140 + (recvDraw : Int)) = 140 + recvDraw := by
    unfold toUInt32Nat
    omega
  constructor
  · intro hgt
    simp [updateNeighbor, hner, intn, hpos, hmod, h20, hgt, hrecv]
  · intro hle
    simp [updateNeighbor, hner, intn, hpos, hmod, hle]

/-- C4 witness: an Idle peer that flapped at time 0, evaluated 16
seconds later with a re-drawn recovery threshold of 15 + 0 seconds
(exceeded) and received-prefix draw 7, recovers to Established with
received-prefix count 147 and LastFlap equal to the tick time. -/
theorem idle_recovery_transition_witness :
    updateNeighbor defaultConfig.simulation (1/50) 0 0 0 7 16000000000
      { address := "10.0.0.2", remoteAS := 65001, state := "Idle", stateCode := 1,
        pfxRecv := 0, pfxSent := 50, uptime := 12, lastFlap := 0, flapCount := 1 } =
      some { address := "10.0.0.2", remoteAS := 65001, state := "Established", stateCode := 6,
             pfxRecv := 147, pfxSent := 50, uptime := 12, lastFlap := 16000000000, flapCount := 1 } := by
  have h := (idle_recovery_transition defaultConfig.simulation (1/50) 0 0 0 7 16000000000
    { address := "10.0.0.2", remoteAS := 65001, state := "Idle", stateCode := 1,
      pfxRecv := 0, pfxSent := 50, uptime := 12, lastFlap := 0, flapCount := 1 }
    rfl (by decide) (by decide)).1 (by decide)
  exact h

/-- C5: the Route Summary invariant.  After initialization from any
configuration, and after any successful tick update, the TotalRoutes
field equals the uint32 sum of the three per-type route counts — it is
recomputed from the current counts, not independently drifted. -/
theorem evpn_total_is_recomputed_sum :
    (∀ c : Config, (initEVPNStateFromConfig c).totalRoutes =
      ((initEVPNStateFromConfig c).type2Routes + (initEVPNStateFromConfig c).type3Routes +
        (initEVPNStateFromConfig c).type5Routes) % 4294967296) ∧
    (∀ (cc : CountersConfig) (d2 d3 d5 : Nat) (s s' : EVPNState),
      evpnTick cc d2 d3 d5 s = some s' →
      s'.totalRoutes = (s'.type2Routes + s'.type3Routes + s'.type5Routes) % 4294967296) := by
  constructor
  · intro c
    rfl
  · intro cc d2 d3 d5 s s' h
    simp only [evpnTick] at h
    split at h
    · exact absurd h (by simp)
    · split at h
      · exact absurd h (by simp)
      · split at h
        · exact absurd h (by simp)
        · simp only [Option.some.injEq] at h
          subst h
          rfl

/-- C5 witness: the scenario of the claim.  A Route Summary with counts
(120, 8, 45) ticked with zero-magnitude fluctuation bounds keeps the
counts (120, 8, 45), and the invariant instantiated at the resulting
state says its total equals (120 + 8 + 45) mod 2^32 = 173. -/
theorem evpn_total_is_recomputed_sum_witness :
    evpnTick zeroFluctCounters 0 0 0
      { type2Routes := 120, type3Routes := 8, type5Routes := 45, totalRoutes := 173 } =
      some { type2Routes := 120, type3Routes := 8, type5Routes := 45, totalRoutes := 173 } ∧
    (173 : Nat) = (120 + 8 + 45) % 4294967296 := by
  constructor
  · decide
  · exact evpn_total_is_recomputed_sum.2 zeroFluctCounters 0 0 0
      { type2Routes := 120, type3Routes := 8, type5Routes := 45, totalRoutes := 173 }
      { type2Routes := 120, type3Routes := 8, type5Routes := 45, totalRoutes := 173 }
      (by decide)

/-- C7 counterexample: no draw perturbs the VTEP count.  For the
default configuration and the first default VNI (VTEP count 3), every
possible pair of MAC/ARP draws leaves the VTEP count at 3 after the
tick — the tick does not perturb all three counts, contradicting the
claim that the attachment-point count receives a random delta. -/
theorem vni_vtep_never_perturbed_cex :
    ¬ ∃ (dMac : Fin 11) (dArp : Fin 7) (v' : VNIState),
      vniTick defaultConfig.simulation.counters dMac.val dArp.val
        { vniID := 5000, state := "Up", stateCode := 1,
          macCount := 45, vtepCount := 3, arpCount := 42 } = some v' ∧
      v'.vtepCount ≠ 3 := by
  decide

/-- C7 (amended): the per-VNI tick perturbs exactly the MAC count and
the ARP count (each by the signed bounded delta of the code); the VTEP
count, the Up/Down state, the state code and the VNI id are never
mutated by the tick update. -/
theorem vni_tick_touches_only_mac_and_arp (c : CountersConfig) (dMac dArp : Nat)
    (v v' : VNIState) (h : vniTick c dMac dArp v = some v') :
    v' = { v with
           macCount := toUInt32Nat ((v.macCount : Int) +
             ((dMac % (2 * c.vniMACFluctuation + 1).toNat : Nat) : Int) - c.vniMACFluctuation),
           arpCount := toUInt32Nat ((v.arpCount : Int) +
             ((dArp % (2 * c.vniARPFluctuation + 1).toNat : Nat) : Int) - c.vniARPFluctuation) } := by
  simp only [vniTick, intn] at h
  by_cases h1 : 2 * c.vniMACFluctuation + 1 ≤ 0
  · simp [h1] at h
  · by_cases h2 : 2 * c.vniARPFluctuation + 1 ≤ 0
    · simp [h1, h2] at h
    · simp only [h1, h2, if_false, if_neg, Option.some.injEq] at h
      subst h
      rfl

/-- C7 witness: the first default VNI ticked with draws (0, 0), i.e.
deltas (-5, -3), goes from counts (45, 3, 42) to (40, 3, 39): the
theorem instantiated there shows the VTEP count and the state are
carried over unchanged. -/
theorem vni_tick_touches_only_mac_and_arp_witness :
    (⟨5000, "Up", 1, 40, 3, 39⟩ : VNIState).vtepCount =
      (⟨5000, "Up", 1, 45, 3, 42⟩ : VNIState).vtepCount ∧
    (⟨5000, "Up", 1, 40, 3, 39⟩ : VNIState).state =
      (⟨5000, "Up", 1, 45, 3, 42⟩ : VNIState).state := by
  have h := vni_tick_touches_only_mac_and_arp defaultConfig.simulation.counters 0 0
    ⟨5000, "Up", 1, 45, 3, 42⟩ ⟨5000, "Up", 1, 40, 3, 39⟩ (by decide)
  constructor
  · rw [h]
  · rw [h]

/-- C9: on every tick processing an Established neighbor that produces
a successor record, the uptime of the successor is the recomputed
elapsed time (tick time minus last transition time, in whole seconds,
as a uint64) — the recomputation happens before the flap draw is
evaluated, so the uptime is updated also on the tick where the peer
flaps to Idle. -/
theorem uptime_recomputed_before_flap_draw (sim : SimulationConfig)
    (flapChance flapDraw : ℚ) (pfxDraw recoveryDraw recvDraw : Nat) (now : Nat)
    (n r : BGPNeighbor) (hs : n.state = "Established")
    (h : updateNeighbor sim flapChance flapDraw pfxDraw recoveryDraw recvDraw now n = some r) :
    r.uptime = (now - n.lastFlap) / 1000000000 % 18446744073709551616 := by
  simp only [updateNeighbor, hs, if_true, intn] at h
  by_cases hd : flapDraw < flapChance
  · simp only [hd, if_true] at h
    simp at h
    subst h
    rfl
  · simp only [hd, if_false] at h
    by_cases hf : 2 * sim.counters.bgpPfxFluctuation + 1 ≤ 0
    · simp [hf] at h
    · simp [hf] at h
      subst h
      rfl

/-- C9 witness: a neighbor Established since time 0, processed at tick
time 5000000000 ns with a flap chance of 1 (so the flap fires), has
uptime 5 seconds in the flapped record: the uptime was recomputed up to
the moment of the flap rather than left at its previous value 0. -/
theorem uptime_recomputed_before_flap_draw_witness :
    ({ address := "10.0.0.1", remoteAS := 65001, state := "Idle", stateCode := 1,
       pfxRecv := 0, pfxSent := 50, uptime := 5, lastFlap := 5000000000,
       flapCount := 1 } : BGPNeighbor).uptime =
      (5000000000 - 0) / 1000000000 % 18446744073709551616 := by
  exact uptime_recomputed_before_flap_draw defaultConfig.simulation 1 0 0 0 0 5000000000
    { address := "10.0.0.1", remoteAS := 65001, state := "Established", stateCode := 6,
      pfxRecv := 150, pfxSent := 50, uptime := 0, lastFlap := 0, flapCount := 0 }
    { address := "10.0.0.1", remoteAS := 65001, state := "Idle", stateCode := 1,
      pfxRecv := 0, pfxSent := 50, uptime := 5, lastFlap := 5000000000, flapCount := 1 }
    rfl (by decide)

/-- Helper: characterization of acceptance by validateConfig as the
conjunction of its individual bound checks. -/
theorem validateConfig_iff (c : Config) : validateConfig c = true ↔
    (0 < c.simulation.flapRecoveryMin ∧ 0 < c.simulation.flapRecoveryMax ∧
     c.simulation.flapRecoveryMin ≤ c.simulation.flapRecoveryMax ∧
     0 ≤ c.simulation.counters.vxlanIngressMin ∧ 0 ≤ c.simulation.counters.vxlanIngressMax ∧
     c.simulation.counters.vxlanIngressMin ≤ c.simulation.counters.vxlanIngressMax ∧
     c.simulation.counters.vxlanEgressMin ≤ c.simulation.counters.vxlanEgressMax ∧
     c.bgpNeighbors.length ≠ 0 ∧ c.vniStates.length ≠ 0) := by
  unfold validateConfig
  split_ifs with h1 h2 h3 h4 h5 h6 h7 <;> simp_all <;> omega

/-- C6 counterexample: a configuration accepted by validateConfig under
which the egress overlay byte counter strictly decreases in one tick.
negEgressConfig (egress delta range [-5000, -1000)) passes validation,
because validateConfig checks non-negativity only for the ingress
bounds; with draw 0 the tick adds uint64(-5000), i.e. 2^64 - 5000, so
the egress counter goes from 2000000 to 1995000. -/
theorem overlay_egress_decreases_cex :
    validateConfig negEgressConfig = true ∧
    vxlanTick negEgressConfig.simulation.counters 0 0 1000000 2000000 =
      some (1001000, 1995000) ∧
    1995000 < 2000000 := by
  refine ⟨by decide, by decide, by decide⟩

/-- C6 (amended): for a configuration accepted by validateConfig whose
egress minimum is additionally non-negative (validateConfig itself
guarantees this only for the ingress bounds), with in-range draws and
no 64-bit wrap-around, one tick adds the non-negative delta min + draw
to each overlay byte counter, so neither counter decreases; in
particular the default ingress counter at 1000000 with delta range
[1000, 5000) lands in [1001000, 1005000). -/
theorem overlay_counters_nondecreasing :
    (∀ (c : Config) (rIn rEg ing eg : Nat),
      validateConfig c = true →
      0 ≤ c.simulation.counters.vxlanEgressMin →
      rIn < (c.simulation.counters.vxlanIngressMax - c.simulation.counters.vxlanIngressMin).toNat →
      rEg < (c.simulation.counters.vxlanEgressMax - c.simulation.counters.vxlanEgressMin).toNat →
      ing + (c.simulation.counters.vxlanIngressMin + rIn).toNat < 18446744073709551616 →
      eg + (c.simulation.counters.vxlanEgressMin + rEg).toNat < 18446744073709551616 →
      vxlanTick c.simulation.counters rIn rEg ing eg =
        some (ing + (c.simulation.counters.vxlanIngressMin + rIn).toNat,
              eg + (c.simulation.counters.vxlanEgressMin + rEg).toNat) ∧
      ing ≤ ing + (c.simulation.counters.vxlanIngressMin + rIn).toNat ∧
      eg ≤ eg + (c.simulation.counters.vxlanEgressMin + rEg).toNat) ∧
    (∀ r : Nat, r < 4000 →
      ∃ p : Nat × Nat, vxlanTick defaultConfig.simulation.counters r 0 1000000 2000000 = some p ∧
        1001000 ≤ p.1 ∧ p.1 < 1005000) := by
  have general : ∀ (c : Config) (rIn rEg ing eg : Nat),
      validateConfig c = true →
      0 ≤ c.simulation.counters.vxlanEgressMin →
      rIn < (c.simulation.counters.vxlanIngressMax - c.simulation.counters.vxlanIngressMin).toNat →
      rEg < (c.simulation.counters.vxlanEgressMax - c.simulation.counters.vxlanEgressMin).toNat →
      ing + (c.simulation.counters.vxlanIngressMin + rIn).toNat < 18446744073709551616 →
      eg + (c.simulation.counters.vxlanEgressMin + rEg).toNat < 18446744073709551616 →
      vxlanTick c.simulation.counters rIn rEg ing eg =
        some (ing + (c.simulation.counters.vxlanIngressMin + rIn).toNat,
              eg + (c.simulation.counters.vxlanEgressMin + rEg).toNat) ∧
      ing ≤ ing + (c.simulation.counters.vxlanIngressMin + rIn).toNat ∧
      eg ≤ eg + (c.simulation.counters.vxlanEgressMin + rEg).toNat := by
    intro c rIn rEg ing eg hval hegmin hrIn hrEg hingOv hegOv
    obtain ⟨-, -, -, hinmin, -, -, -, -, -⟩ := (validateConfig_iff c).mp hval
    have hin0 : ¬ (c.simulation.counters.vxlanIngressMax -
        c.simulation.counters.vxlanIngressMin ≤ 0) := by omega
    have heg0 : ¬ (c.simulation.counters.vxlanEgressMax -
        c.simulation.counters.vxlanEgressMin ≤ 0) := by omega
    have hinmod : rIn % (c.simulation.counters.vxlanIngressMax -
        c.simulation.counters.vxlanIngressMin).toNat = rIn := Nat.mod_eq_of_lt hrIn
    have hegmod : rEg % (c.simulation.counters.vxlanEgressMax -
        c.simulation.counters.vxlanEgressMin).toNat = rEg := Nat.mod_eq_of_lt hrEg
    have hinu : toUInt64Nat (c.simulation.counters.vxlanIngressMin + rIn) =
        (c.simulation.counters.vxlanIngressMin + rIn).toNat := by
      unfold toUInt64Nat
      omega
    have hegu : toUInt64Nat (c.simulation.counters.vxlanEgressMin + rEg) =
        (c.simulation.counters.vxlanEgressMin + rEg).toNat := by
      unfold toUInt64Nat
      omega
    refine ⟨?_, Nat.le_add_right _ _, Nat.le_add_right _ _⟩
    simp only [vxlanTick, intn, hin0, heg0, if_false, hinmod, hegmod, hinu, hegu]
    rw [Nat.mod_eq_of_lt hingOv, Nat.mod_eq_of_lt hegOv]
  refine ⟨general, ?_⟩
  intro r hr
  obtain ⟨heq, -, -⟩ := general defaultConfig r 0 1000000 2000000 (by decide) (by decide)
    (by simp only [defaultConfig]; omega) (by simp only [defaultConfig]; omega)
    (by simp only [defaultConfig]; omega) (by simp only [defaultConfig]; omega)
  refine ⟨_, heq, ?_, ?_⟩ <;> simp only [defaultConfig] <;> omega

/-- C6 witness: the scenario of the claim, via the scenario conjunct at
draw 0: the default ingress counter at 1000000 with delta range
[1000, 5000) lands in [1001000, 1005000) after one tick. -/
theorem overlay_counters_nondecreasing_witness :
    ∃ p : Nat × Nat, vxlanTick defaultConfig.simulation.counters 0 0 1000000 2000000 = some p ∧
      1001000 ≤ p.1 ∧ p.1 < 1005000 :=
  overlay_counters_nondecreasing.2 0 (by norm_num)

/-- C10: the per-tick overlay counter update is total exactly under
strict bounds.  minEqMaxConfig, whose ingress range has min = max, is
accepted by validateConfig and yet the tick update hits rand.Intn(0),
which panics (modelled as none); and whenever both configured ranges
are strictly min < max the update always produces a value. -/
theorem vxlan_tick_totality_needs_strict_bounds :
    (validateConfig minEqMaxConfig = true ∧
     vxlanTick minEqMaxConfig.simulation.counters 0 0 1000000 2000000 = none) ∧
    (∀ (cc : CountersConfig) (rIn rEg ing eg : Nat),
      cc.vxlanIngressMin < cc.vxlanIngressMax →
      cc.vxlanEgressMin < cc.vxlanEgressMax →
      ∃ p, vxlanTick cc rIn rEg ing eg = some p) := by
  refine ⟨⟨by decide, by decide⟩, ?_⟩
  intro cc rIn rEg ing eg h1 h2
  have hc1 : ¬ (cc.vxlanIngressMax - cc.vxlanIngressMin ≤ 0) := by omega
  have hc2 : ¬ (cc.vxlanEgressMax - cc.vxlanEgressMin ≤ 0) := by omega
  simp only [vxlanTick, intn, hc1, hc2, if_false]
  exact ⟨_, rfl⟩

/-- C10 witness: the totality conjunct instantiated at the default
counters (whose ranges are strictly min < max): the tick produces a
value. -/
theorem vxlan_tick_totality_needs_strict_bounds_witness :
    ∃ p, vxlanTick defaultConfig.simulation.counters 0 0 5 5 = some p :=
  vxlan_tick_totality_needs_strict_bounds.2 defaultConfig.simulation.counters 0 0 5 5
    (by decide) (by decide)
